import Mathlib

/-!
# Verification of the opclaw-manager Service Supervisor and frontend glue

The repository is a Tauri desktop console. The frontend (TypeScript/React,
under `src/`) is embedded directly. The Service Supervisor itself lives in
the Rust backend (`src-tauri/`), which is not part of the provided sources;
its operations are modelled from the specification, and each such
definition is marked `Modelled from the spec:` in its doc comment.
-/

namespace OpclawManager

/-! ## Supervisor state machine (modelled from the spec, §3/§4.4) -/

/-- Modelled from the spec: ServiceState enum
{Stopped, Starting, Running, Stopping, Crashed} (§3). -/
inductive ServiceState
  | Stopped
  | Starting
  | Running
  | Stopping
  | Crashed
  deriving DecidableEq, Repr

/-- Modelled from the spec: the error taxonomy of §7
(LaunchFailure, AlreadyRunning, NotRunning, StopTimeout). -/
inductive SupError
  | AlreadyRunning
  | NotRunning
  | LaunchFailure
  | StopTimeout
  deriving DecidableEq, Repr

/-- Modelled from the spec: RecoveryContext — restart attempt counter plus
the CrashLoopDetected condition surfaced to StatusReporter (§3, §4.3). -/
structure RecoveryContext where
  attempts : Nat
  crashLoop : Bool
  deriving DecidableEq, Repr

/-- Modelled from the spec: the supervisor's shared state — the
process-wide ServiceState together with the RecoveryContext (§3, §5). -/
structure Supervisor where
  state : ServiceState
  recovery : RecoveryContext
  deriving DecidableEq, Repr

/-- Modelled from the spec: the observable process-level actions a control
operation performs (launch attempt, graceful terminate signal, forced
kill), used to state which path a command took (§4.1). -/
inductive SupEvent
  | LaunchAttempt
  | GracefulTerm
  | ForcedKill
  deriving DecidableEq, Repr

/-- Result of one serialized control command: the Ack-or-error returned to
the caller, the successor supervisor state, and the process-level events
the command performed. -/
abbrev CmdResult := Except SupError Unit × Supervisor × List SupEvent

/-- Modelled from the spec: `start()` (§4.4) — only valid from Stopped or
Crashed, fails with AlreadyRunning from Starting/Running/Stopping with no
state change; a valid start attempts a launch, which either reaches
Running or surfaces LaunchFailure (§7); an explicit command resets
RecoveryContext (§4.3). `launchOk` abstracts whether the OS spawn
succeeds. -/
def start (launchOk : Bool) (s : Supervisor) : CmdResult :=
  match s.state with
  | .Stopped | .Crashed =>
      if launchOk then
        (Except.ok (), ⟨.Running, ⟨0, false⟩⟩, [.LaunchAttempt])
      else
        (Except.error .LaunchFailure, ⟨.Stopped, ⟨0, false⟩⟩, [.LaunchAttempt])
  | _ => (Except.error .AlreadyRunning, s, [])

/-- Modelled from the spec: `stop()` (§4.4, §4.1, §7) — fails with
NotRunning from Stopped with no state change; otherwise performs a
graceful terminate with timeout and, if graceful termination does not
complete in time (`gracefulOk = false`, i.e. StopTimeout), escalates
unconditionally to a forced kill; it ends in Stopped regardless of which
path succeeded and never surfaces StopTimeout to the caller. -/
def stop (gracefulOk : Bool) (s : Supervisor) : CmdResult :=
  match s.state with
  | .Stopped => (Except.error .NotRunning, s, [])
  | _ =>
      if gracefulOk then
        (Except.ok (), ⟨.Stopped, s.recovery⟩, [.GracefulTerm])
      else
        (Except.ok (), ⟨.Stopped, s.recovery⟩, [.GracefulTerm, .ForcedKill])

/-- Modelled from the spec: `restart()` (§4.4) — composed as Stop
(best-effort, swallowing NotRunning) followed by Start. -/
def restart (gracefulOk launchOk : Bool) (s : Supervisor) : CmdResult :=
  let r1 := stop gracefulOk s
  let r2 := start launchOk r1.2.1
  (r2.1, r2.2.1, r1.2.2 ++ r2.2.2)

/-- Modelled from the spec: one HealthMonitor tick combined with the
RecoveryPolicy decision rule (§4.2, §4.3). If the process exited
unexpectedly while Running: below the attempt ceiling the policy
increments the counter and issues an automatic relaunch (transition to
Starting); at or above the ceiling it transitions to Crashed and surfaces
CrashLoopDetected, issuing no launch. In any other state the monitor
performs no transition and never itself issues Start. -/
def monitorTick (maxAttempts : Nat) (exited : Bool) (s : Supervisor) :
    Supervisor × List SupEvent :=
  match s.state with
  | .Running =>
      if exited then
        if s.recovery.attempts < maxAttempts then
          (⟨.Starting, ⟨s.recovery.attempts + 1, s.recovery.crashLoop⟩⟩,
            [.LaunchAttempt])
        else
          (⟨.Crashed, ⟨s.recovery.attempts, true⟩⟩, [])
      else (s, [])
  | _ => (s, [])

/-- Modelled from the spec: a run of automatic monitor ticks with no
intervening caller command (§4.2), collecting the events issued. -/
def autoRun (maxAttempts : Nat) (ticks : List Bool) (s : Supervisor) :
    Supervisor × List SupEvent :=
  match ticks with
  | [] => (s, [])
  | t :: ts =>
      let r := monitorTick maxAttempts t s
      let rest := autoRun maxAttempts ts r.1
      (rest.1, r.2 ++ rest.2)

/-! ## Status model: the `ServiceStatus` record and `getStatus()` -/

/-- From `src/src/lib/tauri.ts` (interface `ServiceStatus`, lines 26-33):
the record returned by `get_service_status`; `pid`, `uptime_seconds`,
`memory_mb` and `cpu_percent` are nullable. -/
structure ServiceStatus where
  running : Bool
  pid : Option Nat
  port : Nat
  uptime_seconds : Option Nat
  memory_mb : Option Nat
  cpu_percent : Option Nat
  deriving DecidableEq, Repr

/-- Modelled from the spec: one field of `sample()` (§4.1) — a
platform-specific resource query that either yields a value or fails; on
query failure the field degrades to null rather than failing the whole
snapshot. -/
def sampleField (q : Except Unit Nat) : Option Nat :=
  match q with
  | .ok v => some v
  | .error _ => none

/-- Modelled from the spec: `getStatus()` (§4.5, §6) — returns the
{running, pid, port, uptime_seconds, memory_mb, cpu_percent} record;
uptime/memory/cpu come from `sample()` when the process is running and
are null when it is not; a failed resource query degrades the affected
field to null instead of making the status query throw (the function is
total: its result type carries no failure). -/
def getStatus (running : Bool) (pid : Option Nat) (port : Nat)
    (mem cpu up : Except Unit Nat) : ServiceStatus :=
  if running then
    { running := true, pid := pid, port := port,
      uptime_seconds := sampleField up,
      memory_mb := sampleField mem,
      cpu_percent := sampleField cpu }
  else
    { running := false, pid := none, port := port,
      uptime_seconds := none, memory_mb := none, cpu_percent := none }

/-! ## Frontend: the Tauri api wrapper (`src/src/lib/tauri.ts`) -/

/-- From `src/src/lib/tauri.ts` lines 5-7: `isTauri()` — true exactly when
the window object has the `__TAURI_INTERNALS__` key. -/
def isTauri (hasTauriInternals : Bool) : Bool :=
  hasTauriInternals

/-- One issued Tauri backend command: its name and argument record. -/
structure Invocation where
  cmd : String
  args : List (String × String)
  deriving DecidableEq, Repr

/-- From `src/src/lib/tauri.ts` lines 10-23: `invokeWithLog` — throws
before invoking anything when not in a Tauri environment; otherwise
issues exactly one backend command and propagates its result. The second
component records the backend commands actually issued. -/
def invokeWithLog (hasTauriInternals : Bool)
    (backend : String → List (String × String) → Except String String)
    (cmd : String) (args : List (String × String)) :
    Except String String × List Invocation :=
  if isTauri hasTauriInternals = false then
    (Except.error "不在 Tauri 环境中运行，请通过 Tauri 应用启动", [])
  else
    (backend cmd args, [⟨cmd, args⟩])

/-- From `src/src/lib/tauri.ts` line 95: `api.restartService` issues the
`restart_service` command with no arguments. -/
def api_restartService : Invocation :=
  ⟨"restart_service", []⟩

/-- From `src/src/hooks/useService.ts` lines 39-48: the hook's `restart`
calls `api.restartService()`. -/
def useService_restart_invocation : Invocation :=
  api_restartService

/-- From `src/unnamed/part_000` lines 182-193 (Dashboard): `handleRestart`
calls `api.restartService()`. -/
def dashboard_handleRestart_invocation : Invocation :=
  api_restartService

/-- From `src/unnamed/part_000` lines 63-73 (the older Dashboard variant):
`handleRestart` calls `invoke('restart_service')` directly. -/
def dashboardLegacy_handleRestart_invocation : Invocation :=
  ⟨"restart_service", []⟩

/-- Modelled from the spec: the remote messaging-channel `/restart`
command (§6, remote-command contract) routes through the same `restart()`
entry point as the GUI button — the single `restart_service` command,
with no privileged bypass. -/
def remote_slashRestart_invocation : Invocation :=
  ⟨"restart_service", []⟩

/-! ## Frontend: status polling and `fetchStatus` -/

/-- How a status consumer obtains updates: a pull-based poll on a fixed
interval, or a push from the supervisor. -/
inductive UpdateMechanism
  | poll (intervalMs : Nat)
  | push
  deriving DecidableEq, Repr

/-- From `src/src/hooks/useService.ts` lines 51-55:
`setInterval(fetchStatus, 3000)` — a pull on a 3000 ms interval. -/
def useService_statusMechanism : UpdateMechanism :=
  .poll 3000

/-- From `src/unnamed/part_000` lines 33-37 (older Dashboard variant):
`setInterval(fetchStatus, 3000)`. -/
def dashboardLegacy_statusMechanism : UpdateMechanism :=
  .poll 3000

/-- From `src/unnamed/part_000` lines 149-154 (Dashboard):
`setInterval(fetchStatus, 3000)`. -/
def dashboard_statusMechanism : UpdateMechanism :=
  .poll 3000

/-- Every status-update mechanism registered by the frontend's polling
loops. -/
def statusUpdateMechanisms : List UpdateMechanism :=
  [useService_statusMechanism, dashboardLegacy_statusMechanism,
    dashboard_statusMechanism]

/-- Component state of the Dashboard touched by `fetchStatus`: the stored
status snapshot (null until first fetched) and the loading flag. -/
structure DashboardState where
  status : Option ServiceStatus
  loading : Bool
  deriving DecidableEq, Repr

/-- From `src/unnamed/part_000` lines 134-147 (Dashboard `fetchStatus`):
outside Tauri it only clears the loading flag; otherwise it queries
`get_service_status`, stores the result on success, silently swallows a
failure, and clears the loading flag in `finally`. Total: no exception
escapes. -/
def dashboard_fetchStatus (inTauri : Bool)
    (query : Except String ServiceStatus) (st : DashboardState) :
    DashboardState :=
  if inTauri = false then { st with loading := false }
  else
    match query with
    | .ok r => { status := some r, loading := false }
    | .error _ => { st with loading := false }

/-- From `src/unnamed/part_000` lines 22-31 (older Dashboard variant's
`fetchStatus`): queries `get_service_status`, stores the result on
success, logs and swallows a failure, and clears the loading flag in
`finally`. -/
def dashboardLegacy_fetchStatus (query : Except String ServiceStatus)
    (st : DashboardState) : DashboardState :=
  match query with
  | .ok r => { status := some r, loading := false }
  | .error _ => { st with loading := false }

/-- From `src/src/hooks/useService.ts` lines 8-15 (`fetchStatus`): stores
the fetched status in the app store on success; on failure logs and
leaves the stored value unchanged. -/
def useService_fetchStatus (query : Except String ServiceStatus)
    (stored : Option ServiceStatus) : Option ServiceStatus :=
  match query with
  | .ok r => some r
  | .error _ => stored

/-! ## Frontend: AI provider configuration (`src/src/components/AIConfig`) -/

/-- The pair of environment-variable keys associated with one provider. -/
structure EnvKeys where
  apiKey : String
  baseUrl : String
  deriving DecidableEq, Repr

/-- From `src/src/components/AIConfig/index.tsx` lines 25-34:
`ENV_KEY_MAP`. -/
def ENV_KEY_MAP : List (String × EnvKeys) :=
  [("anthropic", ⟨"ANTHROPIC_API_KEY", "ANTHROPIC_BASE_URL"⟩),
   ("openai", ⟨"OPENAI_API_KEY", "OPENAI_BASE_URL"⟩),
   ("deepseek", ⟨"DEEPSEEK_API_KEY", "DEEPSEEK_BASE_URL"⟩),
   ("kimi", ⟨"MOONSHOT_API_KEY", "MOONSHOT_BASE_URL"⟩),
   ("google", ⟨"GOOGLE_API_KEY", "GOOGLE_BASE_URL"⟩),
   ("openrouter", ⟨"OPENAI_API_KEY", "OPENAI_BASE_URL"⟩),
   ("groq", ⟨"OPENAI_API_KEY", "OPENAI_BASE_URL"⟩),
   ("ollama", ⟨"OLLAMA_HOST", "OLLAMA_HOST"⟩)]

/-- The AIConfig component state consumed by `handleSave`. In the source
`selectedProvider` is `string | null` and `selectedModel` a string; JS
falsiness makes both `null` and the empty string falsy. -/
structure AIConfigState where
  selectedProvider : Option String
  selectedModel : String
  apiKey : String
  baseUrl : String
  deriving DecidableEq, Repr

/-- From `src/src/components/AIConfig/index.tsx` lines 143-176
(`handleSave`), as the list of `save_env_value` writes (key, value) it
issues: it returns immediately when no provider or no model is selected;
it writes the API-key env key only when the API-key field is non-empty;
it writes the base-URL env key unconditionally (even when empty, to clear
a stale custom URL). When the selected provider has no `ENV_KEY_MAP`
entry, reading `keys.apiKey`/`keys.baseUrl` throws before any write and
the catch block absorbs it, so no write is issued. -/
def handleSave (st : AIConfigState) : List (String × String) :=
  match st.selectedProvider with
  | none => []
  | some p =>
      if p = "" then []
      else if st.selectedModel = "" then []
      else
        match ENV_KEY_MAP.lookup p with
        | none => []
        | some keys =>
            (if st.apiKey = "" then [] else [(keys.apiKey, st.apiKey)]) ++
              [(keys.baseUrl, st.baseUrl)]

/-! ## Theorems -/

/-- In the Crashed state the monitor performs no transition and issues no
events, over any run of automatic ticks. -/
theorem autoRun_of_crashed (maxA : Nat) (ticks : List Bool) (s : Supervisor)
    (h : s.state = ServiceState.Crashed) :
    autoRun maxA ticks s = (s, []) := by
  induction ticks with
  | nil => rfl
  | cons t ts ih =>
      have hm : monitorTick maxA t s = (s, []) := by
        obtain ⟨st, rc⟩ := s
        cases st <;> simp_all [monitorTick]
      simp [autoRun, hm, ih]

/-- C1: `start()` succeeds only when ServiceState is Stopped or Crashed;
called while Starting, Running, or Stopping it fails with AlreadyRunning
and the supervisor state is unchanged. -/
theorem start_valid_only_from_stopped_or_crashed (launchOk : Bool)
    (s : Supervisor) :
    ((start launchOk s).1 = Except.ok () →
      s.state = ServiceState.Stopped ∨ s.state = ServiceState.Crashed) ∧
    (s.state = ServiceState.Starting ∨ s.state = ServiceState.Running ∨
        s.state = ServiceState.Stopping →
      (start launchOk s).1 = Except.error SupError.AlreadyRunning ∧
      (start launchOk s).2.1 = s) := by
  obtain ⟨st, rc⟩ := s
  cases st <;> cases launchOk <;> simp [start]

/-- Witness for C1 at the Running state. -/
theorem start_valid_only_from_stopped_or_crashed_witness :
    (start true ⟨ServiceState.Running, ⟨0, false⟩⟩).1 =
        Except.error SupError.AlreadyRunning ∧
    (start true ⟨ServiceState.Running, ⟨0, false⟩⟩).2.1 =
        ⟨ServiceState.Running, ⟨0, false⟩⟩ :=
  (start_valid_only_from_stopped_or_crashed true
      ⟨ServiceState.Running, ⟨0, false⟩⟩).2 (Or.inr (Or.inl rfl))

/-- C2: `stop()` from Starting, Running, or Crashed returns Ack and ends
in Stopped whether graceful termination completed (`gracefulOk = true`)
or the forced-kill fallback fired; a graceful-termination timeout is
absorbed by escalating to forced kill and StopTimeout is never surfaced;
`stop()` fails with NotRunning exactly when called from Stopped. -/
theorem stop_ends_stopped_notrunning_iff_stopped (gracefulOk : Bool)
    (s : Supervisor) :
    (s.state = ServiceState.Starting ∨ s.state = ServiceState.Running ∨
        s.state = ServiceState.Crashed →
      (stop gracefulOk s).1 = Except.ok () ∧
      (stop gracefulOk s).2.1.state = ServiceState.Stopped ∧
      (gracefulOk = false →
        SupEvent.ForcedKill ∈ (stop gracefulOk s).2.2)) ∧
    ((stop gracefulOk s).1 = Except.error SupError.NotRunning ↔
      s.state = ServiceState.Stopped) ∧
    (stop gracefulOk s).1 ≠ Except.error SupError.StopTimeout := by
  obtain ⟨st, rc⟩ := s
  cases st <;> cases gracefulOk <;> simp [stop]

/-- Witness for C2 at the Running state with a graceful timeout. -/
theorem stop_ends_stopped_notrunning_iff_stopped_witness :
    (stop false ⟨ServiceState.Running, ⟨2, false⟩⟩).1 = Except.ok () ∧
    (stop false ⟨ServiceState.Running, ⟨2, false⟩⟩).2.1.state =
        ServiceState.Stopped ∧
    SupEvent.ForcedKill ∈ (stop false ⟨ServiceState.Running, ⟨2, false⟩⟩).2.2 := by
  have h := (stop_ends_stopped_notrunning_iff_stopped false
      ⟨ServiceState.Running, ⟨2, false⟩⟩).1 (Or.inr (Or.inl rfl))
  exact ⟨h.1, h.2.1, h.2.2 rfl⟩

/-- C3: `restart()` equals `stop()` with its NotRunning failure swallowed
followed by `start()`; it reaches a fresh launch attempt from every
state, and can fail only with LaunchFailure (and succeeds whenever the
launch succeeds). -/
theorem restart_is_stop_then_start_fails_only_launch (g l : Bool)
    (s : Supervisor) :
    (restart g l s).1 = (start l (stop g s).2.1).1 ∧
    (restart g l s).2.1 = (start l (stop g s).2.1).2.1 ∧
    SupEvent.LaunchAttempt ∈ (restart g l s).2.2 ∧
    ((restart g l s).1 = Except.ok () ∨
      (restart g l s).1 = Except.error SupError.LaunchFailure) ∧
    (l = true → (restart g l s).1 = Except.ok ()) := by
  obtain ⟨st, rc⟩ := s
  cases st <;> cases g <;> cases l <;> simp [restart, stop, start]

/-- Witness for C3: an explicit restart from Crashed with a successful
launch returns Ack. -/
theorem restart_is_stop_then_start_fails_only_launch_witness :
    (restart true true ⟨ServiceState.Crashed, ⟨5, true⟩⟩).1 = Except.ok () :=
  (restart_is_stop_then_start_fails_only_launch true true
      ⟨ServiceState.Crashed, ⟨5, true⟩⟩).2.2.2.2 rfl

/-- C4: when an unexpected exit occurs at or above the restart-attempt
ceiling, the supervisor transitions to Crashed with the CrashLoopDetected
condition surfaced and issues no launch; any run of automatic monitor
ticks from that state changes nothing and issues no automatic Start; an
explicit `restart()` in that state attempts a fresh launch and resets the
RecoveryContext attempt counter to zero. -/
theorem crash_loop_terminal_until_explicit_restart (maxA : Nat)
    (s : Supervisor) (ticks : List Bool) (g l : Bool)
    (hrun : s.state = ServiceState.Running)
    (hceil : maxA ≤ s.recovery.attempts) :
    (monitorTick maxA true s).1.state = ServiceState.Crashed ∧
    (monitorTick maxA true s).1.recovery.crashLoop = true ∧
    (monitorTick maxA true s).2 = [] ∧
    autoRun maxA ticks (monitorTick maxA true s).1 =
      ((monitorTick maxA true s).1, []) ∧
    SupEvent.LaunchAttempt ∈ (restart g l (monitorTick maxA true s).1).2.2 ∧
    (restart g l (monitorTick maxA true s).1).2.1.recovery.attempts = 0 := by
  obtain ⟨st, rc⟩ := s
  simp only at hrun hceil
  subst hrun
  have hnl : ¬ rc.attempts < maxA := Nat.not_lt.mpr hceil
  have hm : monitorTick maxA true ⟨ServiceState.Running, rc⟩ =
      (⟨ServiceState.Crashed, ⟨rc.attempts, true⟩⟩, []) := by
    simp [monitorTick, hnl]
  refine ⟨by rw [hm], by rw [hm], by rw [hm], ?_, ?_, ?_⟩
  · rw [hm]
    exact autoRun_of_crashed maxA ticks _ rfl
  · rw [hm]
    cases g <;> cases l <;> simp [restart, stop, start]
  · rw [hm]
    cases g <;> cases l <;> simp [restart, stop, start]

/-- Witness for C4: ceiling 3, third crash already recorded, a fourth
crash yields the crash-loop state; two further ticks do nothing; explicit
restart relaunches and resets the counter. -/
theorem crash_loop_terminal_until_explicit_restart_witness :
    (monitorTick 3 true ⟨ServiceState.Running, ⟨3, false⟩⟩).1.state =
        ServiceState.Crashed ∧
    (monitorTick 3 true ⟨ServiceState.Running, ⟨3, false⟩⟩).1.recovery.crashLoop
        = true ∧
    (monitorTick 3 true ⟨ServiceState.Running, ⟨3, false⟩⟩).2 = [] ∧
    autoRun 3 [true, false]
        (monitorTick 3 true ⟨ServiceState.Running, ⟨3, false⟩⟩).1 =
      ((monitorTick 3 true ⟨ServiceState.Running, ⟨3, false⟩⟩).1, []) ∧
    SupEvent.LaunchAttempt ∈
      (restart true true
        (monitorTick 3 true ⟨ServiceState.Running, ⟨3, false⟩⟩).1).2.2 ∧
    (restart true true
        (monitorTick 3 true ⟨ServiceState.Running, ⟨3, false⟩⟩).1).2.1.recovery.attempts
      = 0 :=
  crash_loop_terminal_until_explicit_restart 3
    ⟨ServiceState.Running, ⟨3, false⟩⟩ [true, false] true true rfl
    (by decide)

/-- C5: every external restart trigger — the hook's `restart`, the
Dashboard restart button in both variants, and the remote
messaging-channel `/restart` — resolves to the identical entry point: the
single `restart_service` command with no arguments, the same invocation
as `api.restartService`. -/
theorem restart_triggers_single_entry_point :
    useService_restart_invocation = ⟨"restart_service", []⟩ ∧
    dashboard_handleRestart_invocation = ⟨"restart_service", []⟩ ∧
    dashboardLegacy_handleRestart_invocation = ⟨"restart_service", []⟩ ∧
    remote_slashRestart_invocation = ⟨"restart_service", []⟩ ∧
    useService_restart_invocation = api_restartService ∧
    dashboard_handleRestart_invocation = api_restartService ∧
    remote_slashRestart_invocation = api_restartService :=
  ⟨rfl, rfl, rfl, rfl, rfl, rfl, rfl⟩

/-- C6: `getStatus()` always returns the full
{running, pid, port, uptime_seconds, memory_mb, cpu_percent} record (its
result type); when the process is not running, pid and the three metric
fields are null; when a resource query fails, the corresponding field
degrades to null rather than the status query throwing (the function is
total). -/
theorem getStatus_total_and_degrades (running : Bool) (pid : Option Nat)
    (port : Nat) (mem cpu up : Except Unit Nat) :
    (running = false →
      getStatus running pid port mem cpu up =
        ⟨false, none, port, none, none, none⟩) ∧
    (∀ e, mem = Except.error e →
      (getStatus running pid port mem cpu up).memory_mb = none) ∧
    (∀ e, cpu = Except.error e →
      (getStatus running pid port mem cpu up).cpu_percent = none) ∧
    (∀ e, up = Except.error e →
      (getStatus running pid port mem cpu up).uptime_seconds = none) ∧
    (getStatus running pid port mem cpu up).port = port := by
  cases running with
  | false =>
      refine ⟨fun _ => rfl, ?_, ?_, ?_, rfl⟩ <;>
        · rintro e rfl
          rfl
  | true =>
      refine ⟨?_, ?_, ?_, ?_, rfl⟩
      · intro h
        exact absurd h (by simp)
      all_goals
        rintro e rfl
        simp [getStatus, sampleField]

/-- Witness for C6: a stopped process yields all-null metrics; a failed
memory query on a running process yields a null memory field. -/
theorem getStatus_total_and_degrades_witness :
    getStatus false (some 7) 18789 (Except.error ()) (Except.ok 1)
        (Except.ok 2) = ⟨false, none, 18789, none, none, none⟩ ∧
    (getStatus true (some 7) 18789 (Except.error ()) (Except.ok 1)
        (Except.ok 2)).memory_mb = none :=
  ⟨(getStatus_total_and_degrades false (some 7) 18789 (Except.error ())
      (Except.ok 1) (Except.ok 2)).1 rfl,
    (getStatus_total_and_degrades true (some 7) 18789 (Except.error ())
      (Except.ok 1) (Except.ok 2)).2.1 () rfl⟩

/-- C7: every status-update mechanism registered by the frontend is a
pull-based poll on a 3000 ms interval; none is a push from the
supervisor. -/
theorem status_polling_fixed_3s_cadence :
    statusUpdateMechanisms =
      [UpdateMechanism.poll 3000, UpdateMechanism.poll 3000,
        UpdateMechanism.poll 3000] ∧
    ∀ m ∈ statusUpdateMechanisms,
      m = UpdateMechanism.poll 3000 ∧ m ≠ UpdateMechanism.push := by
  exact ⟨rfl, by decide⟩

/-- Witness for C7 at the `useService` polling loop. -/
theorem status_polling_fixed_3s_cadence_witness :
    useService_statusMechanism = UpdateMechanism.poll 3000 ∧
    useService_statusMechanism ≠ UpdateMechanism.push :=
  status_polling_fixed_3s_cadence.2 useService_statusMechanism
    (by simp [statusUpdateMechanisms])

/-- C8: for every command name, argument record and backend, calling the
api wrapper outside a Tauri environment returns an error and issues no
backend command at all. -/
theorem invokeWithLog_throws_outside_tauri
    (backend : String → List (String × String) → Except String String)
    (cmd : String) (args : List (String × String)) :
    invokeWithLog false backend cmd args =
      (Except.error "不在 Tauri 环境中运行，请通过 Tauri 应用启动", []) :=
  rfl

/-- C9: on a failed status query, every `fetchStatus` variant leaves the
stored status value unchanged (each is a total function, so no exception
escapes), and the Dashboard variants still clear the loading flag. -/
theorem fetchStatus_failure_preserves_status (e : String)
    (st : DashboardState) (stored : Option ServiceStatus) :
    dashboard_fetchStatus true (Except.error e) st =
      { st with loading := false } ∧
    (dashboard_fetchStatus true (Except.error e) st).status = st.status ∧
    (dashboard_fetchStatus true (Except.error e) st).loading = false ∧
    dashboardLegacy_fetchStatus (Except.error e) st =
      { st with loading := false } ∧
    useService_fetchStatus (Except.error e) stored = stored := by
  refine ⟨?_, ?_, ?_, rfl, rfl⟩ <;> simp [dashboard_fetchStatus]

/-- C10: `handleSave` writes the provider's base-URL env key
unconditionally (even when the base-URL field is empty) and the API-key
env key exactly when the API-key field is non-empty; with no provider
selected (null or empty) or no model selected it performs no writes. -/
theorem handleSave_write_set (st : AIConfigState) :
    (∀ p keys, st.selectedProvider = some p → p ≠ "" →
      st.selectedModel ≠ "" → ENV_KEY_MAP.lookup p = some keys →
      handleSave st =
        (if st.apiKey = "" then [] else [(keys.apiKey, st.apiKey)]) ++
          [(keys.baseUrl, st.baseUrl)]) ∧
    (st.selectedProvider = none → handleSave st = []) ∧
    (st.selectedProvider = some "" → handleSave st = []) ∧
    (st.selectedModel = "" → handleSave st = []) := by
  obtain ⟨sp, sm, ak, bu⟩ := st
  refine ⟨?_, ?_, ?_, ?_⟩
  · rintro p keys rfl hp hm hk
    simp only at hp hm hk
    simp [handleSave, hp, hm, hk]
  · rintro rfl
    rfl
  · rintro rfl
    simp [handleSave]
  · rintro rfl
    cases sp with
    | none => rfl
    | some p =>
        by_cases hp : p = "" <;> simp [handleSave, hp]

/-- Witness for C10: saving anthropic with an empty API key and an empty
base URL writes exactly the base-URL key with the empty value; a save
with no provider selected writes nothing. -/
theorem handleSave_write_set_witness :
    handleSave ⟨some "anthropic", "claude-3-5-sonnet", "", ""⟩ =
      [("ANTHROPIC_BASE_URL", "")] ∧
    handleSave ⟨none, "claude-3-5-sonnet", "sk-key", "https://x.example"⟩ =
      [] := by
  constructor
  · have h := (handleSave_write_set
        ⟨some "anthropic", "claude-3-5-sonnet", "", ""⟩).1 "anthropic"
        ⟨"ANTHROPIC_API_KEY", "ANTHROPIC_BASE_URL"⟩ rfl (by decide)
        (by decide) (by decide)
    simpa using h
  · exact (handleSave_write_set
        ⟨none, "claude-3-5-sonnet", "sk-key", "https://x.example"⟩).2.1 rfl

end OpclawManager
